import Mathlib

/-!
Verification of the transaction risk-scoring and compliance-monitoring engine
of the fraud-detection program (src/contracts/programs/fraud-detection/src/lib.rs).

The Rust source is shallowly embedded: Solana `Pubkey`s become `Nat`, machine
integers become `Nat` with explicit `% 2 ^ 64` / `% 2 ^ 32` wherever the
release-mode source performs unchecked (wrapping) arithmetic, and the
price-oracle call becomes an `Option Nat` input carrying the already-converted
USD amount (the oracle itself is an external collaborator; `Option.none` models
a failed conversion, which the source propagates with `?`).  The risk-registry
"remaining account" of `monitor_transaction` is modelled by the byte length of
the account data handed in (`Option Nat`; the source only tests
`risk_data.len() > 0`).  Returning `Result<T>` becomes
`Except FraudDetectionError T`; for `monitor_transaction` the in-memory profile
state is returned alongside, so the failure path exposes exactly which
mutations precede the error.
-/

namespace FraudDetection

/-- Wrap-around modulus of the source's `u64` fields. -/
def U64MOD : Nat := 18446744073709551616

/-- Wrap-around modulus of the source's `u32` fields. -/
def U32MOD : Nat := 4294967296

/-- KYC tiers, from `enum KYCLevel` in the source. -/
inductive KYCLevel
  | none
  | basic
  | enhanced
  deriving DecidableEq, Repr

/-- Risk categories of registry entries, from `enum RiskCategory`. -/
inductive RiskCategory
  | sanctions
  | pep
  | highRiskJurisdiction
  | knownScammer
  | mixerService
  | darknetMarket
  | ransomware
  | other
  deriving DecidableEq, Repr

/-- Risk levels of registry entries, from `enum RiskLevel`. -/
inductive RiskLevel
  | low
  | medium
  | high
  | critical
  deriving DecidableEq, Repr

/-- Transaction kinds, from `enum TransactionType`. -/
inductive TransactionType
  | payment
  | transfer
  | swap
  | bridge
  | stake
  | other
  deriving DecidableEq, Repr

/-- Verdict of one evaluation, from `enum TransactionStatus`. -/
inductive TransactionStatus
  | approved
  | flagged
  | blocked
  deriving DecidableEq, Repr

/-- Flag kinds, from `enum FlagType`. -/
inductive FlagType
  | highValueTransaction
  | highVelocity
  | excessiveVolume
  | highRiskRecipient
  | unusualPattern
  | kycRequired
  | kycUpgradeRequired
  | aiAnomaly
  deriving DecidableEq, Repr

/-- Flag severities, from `enum FlagSeverity`. -/
inductive FlagSeverity
  | low
  | medium
  | high
  | critical
  deriving DecidableEq, Repr

/-- Error codes, from `enum FraudDetectionError`. -/
inductive FraudDetectionError
  | unauthorizedAccess
  | userBlocked
  | transactionExceedsLimits
  | highRiskRecipient
  | kycRequired
  | invalidPriceOracle
  deriving DecidableEq, Repr

/-- One fraud flag, from `struct FraudFlag`. -/
structure FraudFlag where
  flag_type : FlagType
  severity : FlagSeverity
  description : String
  detected_at_slot : Nat
  deriving DecidableEq, Repr

/-- Global compliance thresholds, from `struct ComplianceConfig`
(`bump` is a PDA-derivation detail and is omitted). -/
structure ComplianceConfig where
  authority : Nat
  high_value_threshold_usd : Nat
  velocity_threshold : Nat
  max_daily_volume_usd : Nat
  is_active : Bool
  total_flagged_transactions : Nat
  total_blocked_transactions : Nat
  last_updated_slot : Nat
  deriving DecidableEq, Repr

/-- Per-user risk state, from `struct UserProfile` (`bump` omitted). -/
structure UserProfile where
  user : Nat
  sns_domain : String
  kyc_level : KYCLevel
  risk_score : Nat
  total_transaction_count : Nat
  total_volume_usd : Nat
  daily_transaction_count : Nat
  daily_volume_usd : Nat
  last_transaction_slot : Nat
  last_daily_reset_slot : Nat
  is_flagged : Bool
  is_blocked : Bool
  flags : List FraudFlag
  deriving DecidableEq, Repr

/-- High-risk registry entry, from `struct RiskRegistry` (`bump` omitted). -/
structure RiskRegistry where
  address : Nat
  risk_category : RiskCategory
  risk_level : RiskLevel
  description : String
  added_at_slot : Nat
  is_active : Bool
  deriving DecidableEq, Repr

/-- Whitelist entry, from `struct Whitelist` (`bump` omitted). -/
structure Whitelist where
  address : Nat
  whitelisted_at_slot : Nat
  is_active : Bool
  deriving DecidableEq, Repr

/-- Allocated account size of a risk-registry account, from
`RiskRegistry::LEN` in the source; every initialized registry account has
data of exactly this length, whatever its `is_active` field holds. -/
def RiskRegistryLEN : Nat := 8 + 32 + 1 + 1 + 256 + 8 + 1 + 1

/-- Severity weights from the `match flag.severity` arms inside
`monitor_transaction` (lines 232-239 of the source). -/
def severityPoints : FlagSeverity → Nat
  | FlagSeverity.low => 1
  | FlagSeverity.medium => 5
  | FlagSeverity.high => 15
  | FlagSeverity.critical => 50

/-- Sum of severity weights over a list of flags:
`flags.iter().map(|flag| match flag.severity ...).sum::<u32>()`. -/
def flagWeightSum (l : List FraudFlag) : Nat :=
  (l.map (fun f => severityPoints f.severity)).sum

/-- Daily-window reset at the top of `monitor_transaction` (lines 115-120):
if more than 216000 slots passed since the last reset, zero the daily
counters and stamp the reset slot. -/
def dailyReset (p : UserProfile) (current_slot : Nat) : UserProfile :=
  if current_slot - p.last_daily_reset_slot > 216000 then
    { p with daily_transaction_count := 0, daily_volume_usd := 0,
             last_daily_reset_slot := current_slot }
  else p

/-- Rule 1, high-value transaction (lines 136-145). -/
def highValueFlags (cfg : ComplianceConfig) (current_slot usd_amount : Nat) :
    List FraudFlag :=
  if usd_amount > cfg.high_value_threshold_usd then
    [{ flag_type := FlagType.highValueTransaction, severity := FlagSeverity.high,
       description := "Transaction amount $" ++ toString usd_amount ++
         " exceeds threshold $" ++ toString cfg.high_value_threshold_usd,
       detected_at_slot := current_slot }]
  else []

/-- Rule 2, velocity (lines 147-156). -/
def velocityFlags (cfg : ComplianceConfig) (p : UserProfile)
    (current_slot : Nat) : List FraudFlag :=
  if p.daily_transaction_count ≥ cfg.velocity_threshold then
    [{ flag_type := FlagType.highVelocity, severity := FlagSeverity.medium,
       description := "Daily transaction count " ++
         toString p.daily_transaction_count ++ " exceeds threshold " ++
         toString cfg.velocity_threshold,
       detected_at_slot := current_slot }]
  else []

/-- Projected daily volume `user_profile.daily_volume_usd + usd_amount`
(line 159); the source addition is an unchecked `u64` `+`, hence the wrap. -/
def projectedDailyVolume (p : UserProfile) (usd_amount : Nat) : Nat :=
  (p.daily_volume_usd + usd_amount) % U64MOD

/-- Condition of rule 3 (line 160). -/
def volumeHit (cfg : ComplianceConfig) (p : UserProfile) (usd_amount : Nat) :
    Bool :=
  projectedDailyVolume p usd_amount > cfg.max_daily_volume_usd

/-- Rule 3, excessive daily volume (lines 158-169); also forces a block. -/
def volumeFlags (cfg : ComplianceConfig) (p : UserProfile)
    (current_slot usd_amount : Nat) : List FraudFlag :=
  if volumeHit cfg p usd_amount then
    [{ flag_type := FlagType.excessiveVolume, severity := FlagSeverity.high,
       description := "Daily volume $" ++
         toString (projectedDailyVolume p usd_amount) ++
         " would exceed limit $" ++ toString cfg.max_daily_volume_usd,
       detected_at_slot := current_slot }]
  else []

/-- Condition of rule 4 (lines 172-174): a remaining account was supplied and
its data is non-empty.  The source inspects only `risk_data.len() > 0`; the
registry entry's fields, in particular `is_active`, are never read here. -/
def highRiskHit (riskDataLen : Option Nat) : Bool :=
  match riskDataLen with
  | Option.none => false
  | Option.some n => decide (n > 0)

/-- Rule 4, high-risk recipient (lines 171-183); also forces a block. -/
def highRiskFlags (current_slot : Nat) (riskDataLen : Option Nat) :
    List FraudFlag :=
  if highRiskHit riskDataLen then
    [{ flag_type := FlagType.highRiskRecipient,
       severity := FlagSeverity.critical,
       description := "Transaction to high-risk address detected",
       detected_at_slot := current_slot }]
  else []

/-- Rule 5, unusual pattern (lines 185-194): fewer than 10 slots since the
previous transaction and this is not the first transaction. -/
def patternFlags (p : UserProfile) (current_slot : Nat) : List FraudFlag :=
  if current_slot - p.last_transaction_slot < 10 ∧
      p.total_transaction_count > 0 then
    [{ flag_type := FlagType.unusualPattern, severity := FlagSeverity.medium,
       description := "Rapid successive transactions detected",
       detected_at_slot := current_slot }]
  else []

/-- Condition of the blocking arm of rule 6 (lines 198-207):
KYC level `None` with a USD amount above 1000. -/
def kycNoneHit (p : UserProfile) (usd_amount : Nat) : Bool :=
  match p.kyc_level with
  | KYCLevel.none => decide (usd_amount > 1000)
  | KYCLevel.basic => false
  | KYCLevel.enhanced => false

/-- Rule 6, KYC gating (lines 196-222). -/
def kycFlags (p : UserProfile) (current_slot usd_amount : Nat) :
    List FraudFlag :=
  match p.kyc_level with
  | KYCLevel.none =>
      if usd_amount > 1000 then
        [{ flag_type := FlagType.kycRequired, severity := FlagSeverity.high,
           description := "KYC required for transactions over $1000",
           detected_at_slot := current_slot }]
      else []
  | KYCLevel.basic =>
      if usd_amount > 10000 then
        [{ flag_type := FlagType.kycUpgradeRequired,
           severity := FlagSeverity.medium,
           description := "Enhanced KYC required for transactions over $10,000",
           detected_at_slot := current_slot }]
      else []
  | KYCLevel.enhanced => []

/-- All flags of one evaluation, in the source's emission order
(rules 1 to 6 of `monitor_transaction`). -/
def evalFlags (cfg : ComplianceConfig) (p : UserProfile)
    (current_slot usd_amount : Nat) (riskDataLen : Option Nat) :
    List FraudFlag :=
  highValueFlags cfg current_slot usd_amount ++
    velocityFlags cfg p current_slot ++
    volumeFlags cfg p current_slot usd_amount ++
    highRiskFlags current_slot riskDataLen ++
    patternFlags p current_slot ++
    kycFlags p current_slot usd_amount

/-- Accumulated `should_block` of the rules alone (lines 134, 168, 181,
206), before the auto-block threshold check. -/
def ruleShouldBlock (cfg : ComplianceConfig) (p : UserProfile)
    (usd_amount : Nat) (riskDataLen : Option Nat) : Bool :=
  volumeHit cfg p usd_amount || highRiskHit riskDataLen ||
    kycNoneHit p usd_amount

/-- Profile update of `monitor_transaction` (lines 224-253): increment the
lifetime and daily counters (unchecked `u64`/`u32` additions, hence the
modular wraps), stamp the transaction slot, add the flag-weight sum to
`risk_score` (unchecked `u32` addition), auto-block above 100, store the
flags, and mark the profile flagged when any flag was raised. -/
def updateProfile (p : UserProfile) (current_slot usd_amount : Nat)
    (flags : List FraudFlag) : UserProfile :=
  let newScore := (p.risk_score + flagWeightSum flags) % U32MOD
  { p with
    total_transaction_count := (p.total_transaction_count + 1) % U64MOD
    total_volume_usd := (p.total_volume_usd + usd_amount) % U64MOD
    daily_transaction_count := (p.daily_transaction_count + 1) % U32MOD
    daily_volume_usd := (p.daily_volume_usd + usd_amount) % U64MOD
    last_transaction_slot := current_slot
    risk_score := newScore
    is_blocked := if newScore > 100 then true else p.is_blocked
    flags := p.flags ++ flags
    is_flagged := if flags.isEmpty then p.is_flagged else true }

/-- Post-evaluation profile of a non-short-circuited call. -/
def evalProfile (cfg : ComplianceConfig) (p : UserProfile)
    (current_slot usd_amount : Nat) (riskDataLen : Option Nat) : UserProfile :=
  updateProfile (dailyReset p current_slot) current_slot usd_amount
    (evalFlags cfg (dailyReset p current_slot) current_slot usd_amount
      riskDataLen)

/-- Verdict of a non-short-circuited call (lines 243-262): `should_block`
(from the rules or from the auto-block threshold) yields `Blocked`, otherwise
any flag yields `Flagged`, otherwise `Approved`. -/
def evalStatus (cfg : ComplianceConfig) (p : UserProfile)
    (current_slot usd_amount : Nat) (riskDataLen : Option Nat) :
    TransactionStatus :=
  if ruleShouldBlock cfg (dailyReset p current_slot) usd_amount riskDataLen ||
      decide
        ((evalProfile cfg p current_slot usd_amount riskDataLen).risk_score >
          100) then
    TransactionStatus.blocked
  else if (evalFlags cfg (dailyReset p current_slot) current_slot usd_amount
      riskDataLen).isEmpty then
    TransactionStatus.approved
  else TransactionStatus.flagged

/-- Evaluation entry point `monitor_transaction` (lines 105-297).  Order follows the source: daily
window reset, oracle conversion (`?`-propagated failure), blocked
short-circuit, rule evaluation, profile update, verdict.  The returned pair
carries the profile as left by the call together with either the error or the
verdict and the flags raised in this evaluation (which the source also copies
into the `TransactionRecord`). -/
def monitor_transaction (cfg : ComplianceConfig) (profile : UserProfile)
    (current_slot amount_lamports recipient : Nat) (oracleUsd : Option Nat)
    (riskDataLen : Option Nat) :
    UserProfile × Except FraudDetectionError (TransactionStatus × List FraudFlag) :=
  match oracleUsd with
  | Option.none =>
      (dailyReset profile current_slot,
       Except.error FraudDetectionError.invalidPriceOracle)
  | Option.some usd_amount =>
      if (dailyReset profile current_slot).is_blocked then
        (dailyReset profile current_slot,
         Except.ok (TransactionStatus.blocked, []))
      else
        (evalProfile cfg profile current_slot usd_amount riskDataLen,
         Except.ok
           (evalStatus cfg profile current_slot usd_amount riskDataLen,
            evalFlags cfg (dailyReset profile current_slot) current_slot
              usd_amount riskDataLen))

/-- Registration `register_user_profile` (lines 40-70).  The accounts context takes an
arbitrary signer as payer and performs no comparison against
`ComplianceConfig.authority` (the config account is not even part of the
context), so the call succeeds for every caller; `authority_signer` is
carried to make that visible. -/
def register_user_profile (authority_signer user_pubkey : Nat)
    (sns_domain : String) (kyc_level : KYCLevel) (current_slot : Nat) :
    Except FraudDetectionError UserProfile :=
  Except.ok
    { user := user_pubkey, sns_domain := sns_domain, kyc_level := kyc_level,
      risk_score := 0, total_transaction_count := 0, total_volume_usd := 0,
      daily_transaction_count := 0, daily_volume_usd := 0,
      last_transaction_slot := 0, last_daily_reset_slot := current_slot,
      is_flagged := false, is_blocked := false, flags := [] }

/-- Admin action `add_high_risk_address` (lines 72-103).  Authority-gated by the
`require!` at lines 82-85.  Line 89 of the source reads
`risk_level = risk_level;`, a self-assignment of the parameter, so the
account field keeps its zero-initialized value, which deserializes as
`RiskLevel::Low`. -/
def add_high_risk_address (cfg : ComplianceConfig) (caller address : Nat)
    (risk_category : RiskCategory) (risk_level : RiskLevel)
    (description : String) (current_slot : Nat) :
    Except FraudDetectionError RiskRegistry :=
  if caller = cfg.authority then
    Except.ok
      { address := address, risk_category := risk_category,
        risk_level := RiskLevel.low, description := description,
        added_at_slot := current_slot, is_active := true }
  else Except.error FraudDetectionError.unauthorizedAccess

/-- Admin action `update_risk_score_ai` (lines 299-342): authority-gated; blends the AI
score into `risk_score` by wrapping `u32` addition and truncating halving,
appends one AI-anomaly flag per indicator with severity from the
`ai_risk_score` thresholds of lines 319-322, and blocks when
`ai_risk_score > 90`. -/
def update_risk_score_ai (cfg : ComplianceConfig) (p : UserProfile)
    (caller ai_risk_score : Nat) (anomaly_indicators : List String)
    (current_slot : Nat) : Except FraudDetectionError UserProfile :=
  if caller = cfg.authority then
    let newScore := ((p.risk_score + ai_risk_score) % U32MOD) / 2
    let sev :=
      if ai_risk_score > 75 then FlagSeverity.critical
      else if ai_risk_score > 50 then FlagSeverity.high
      else if ai_risk_score > 25 then FlagSeverity.medium
      else FlagSeverity.low
    Except.ok
      { p with
        risk_score := newScore
        flags := p.flags ++ anomaly_indicators.map (fun d =>
          { flag_type := FlagType.aiAnomaly, severity := sev,
            description := d, detected_at_slot := current_slot })
        is_blocked := if ai_risk_score > 90 then true else p.is_blocked }
  else Except.error FraudDetectionError.unauthorizedAccess

/-- Admin action `whitelist_address` (lines 344-367): authority-gated entry creation. -/
def whitelist_address (cfg : ComplianceConfig) (caller address : Nat)
    (current_slot : Nat) : Except FraudDetectionError Whitelist :=
  if caller = cfg.authority then
    Except.ok
      { address := address, whitelisted_at_slot := current_slot,
        is_active := true }
  else Except.error FraudDetectionError.unauthorizedAccess

/-- Admin action `unblock_user` (lines 369-391): authority-gated; clears the block and
halves the risk score. -/
def unblock_user (cfg : ComplianceConfig) (p : UserProfile)
    (caller : Nat) (reason : String) : Except FraudDetectionError UserProfile :=
  if caller = cfg.authority then
    Except.ok { p with is_blocked := false, risk_score := p.risk_score / 2 }
  else Except.error FraudDetectionError.unauthorizedAccess

/-- Profiles producible by the program: registration followed by any
sequence of evaluations and admin actions. -/
inductive Reachable : UserProfile → Prop
  | register (a u : Nat) (d : String) (k : KYCLevel) (s : Nat)
      (p : UserProfile) :
      register_user_profile a u d k s = Except.ok p → Reachable p
  | monitor (cfg : ComplianceConfig) (p : UserProfile)
      (slot lam rcp : Nat) (oracle rdl : Option Nat)
      (p' : UserProfile)
      (out : Except FraudDetectionError (TransactionStatus × List FraudFlag)) :
      Reachable p →
      monitor_transaction cfg p slot lam rcp oracle rdl = (p', out) →
      Reachable p'
  | ai (cfg : ComplianceConfig) (p : UserProfile) (caller ai_score : Nat)
      (inds : List String) (slot : Nat) (p' : UserProfile) :
      Reachable p →
      update_risk_score_ai cfg p caller ai_score inds slot = Except.ok p' →
      Reachable p'
  | unblock (cfg : ComplianceConfig) (p : UserProfile) (caller : Nat)
      (reason : String) (p' : UserProfile) :
      Reachable p →
      unblock_user cfg p caller reason = Except.ok p' →
      Reachable p'

/-! ### Field-preservation lemmas for the window reset and the profile update -/

@[simp] theorem dailyReset_is_blocked (p : UserProfile) (s : Nat) :
    (dailyReset p s).is_blocked = p.is_blocked := by
  unfold dailyReset; split <;> rfl

@[simp] theorem dailyReset_risk_score (p : UserProfile) (s : Nat) :
    (dailyReset p s).risk_score = p.risk_score := by
  unfold dailyReset; split <;> rfl

@[simp] theorem dailyReset_kyc_level (p : UserProfile) (s : Nat) :
    (dailyReset p s).kyc_level = p.kyc_level := by
  unfold dailyReset; split <;> rfl

@[simp] theorem dailyReset_flags (p : UserProfile) (s : Nat) :
    (dailyReset p s).flags = p.flags := by
  unfold dailyReset; split <;> rfl

@[simp] theorem dailyReset_is_flagged (p : UserProfile) (s : Nat) :
    (dailyReset p s).is_flagged = p.is_flagged := by
  unfold dailyReset; split <;> rfl

@[simp] theorem dailyReset_total_transaction_count (p : UserProfile) (s : Nat) :
    (dailyReset p s).total_transaction_count = p.total_transaction_count := by
  unfold dailyReset; split <;> rfl

@[simp] theorem dailyReset_total_volume_usd (p : UserProfile) (s : Nat) :
    (dailyReset p s).total_volume_usd = p.total_volume_usd := by
  unfold dailyReset; split <;> rfl

@[simp] theorem dailyReset_last_transaction_slot (p : UserProfile) (s : Nat) :
    (dailyReset p s).last_transaction_slot = p.last_transaction_slot := by
  unfold dailyReset; split <;> rfl

@[simp] theorem dailyReset_user (p : UserProfile) (s : Nat) :
    (dailyReset p s).user = p.user := by
  unfold dailyReset; split <;> rfl

@[simp] theorem updateProfile_risk_score (p : UserProfile)
    (s u : Nat) (fl : List FraudFlag) :
    (updateProfile p s u fl).risk_score =
      (p.risk_score + flagWeightSum fl) % U32MOD := rfl

@[simp] theorem updateProfile_flags (p : UserProfile)
    (s u : Nat) (fl : List FraudFlag) :
    (updateProfile p s u fl).flags = p.flags ++ fl := rfl

@[simp] theorem updateProfile_daily_volume_usd (p : UserProfile)
    (s u : Nat) (fl : List FraudFlag) :
    (updateProfile p s u fl).daily_volume_usd =
      (p.daily_volume_usd + u) % U64MOD := rfl

@[simp] theorem updateProfile_is_blocked (p : UserProfile)
    (s u : Nat) (fl : List FraudFlag) :
    (updateProfile p s u fl).is_blocked =
      if (p.risk_score + flagWeightSum fl) % U32MOD > 100 then true
      else p.is_blocked := rfl

/-! ### Bounding the flag-weight sum of a single evaluation -/

theorem flagWeightSum_append (a b : List FraudFlag) :
    flagWeightSum (a ++ b) = flagWeightSum a + flagWeightSum b := by
  simp [flagWeightSum]

theorem highValueFlags_weight_le (cfg : ComplianceConfig) (s u : Nat) :
    flagWeightSum (highValueFlags cfg s u) ≤ 15 := by
  unfold highValueFlags; split <;> simp [flagWeightSum, severityPoints]

theorem velocityFlags_weight_le (cfg : ComplianceConfig) (p : UserProfile)
    (s : Nat) : flagWeightSum (velocityFlags cfg p s) ≤ 5 := by
  unfold velocityFlags; split <;> simp [flagWeightSum, severityPoints]

theorem volumeFlags_weight_le (cfg : ComplianceConfig) (p : UserProfile)
    (s u : Nat) : flagWeightSum (volumeFlags cfg p s u) ≤ 15 := by
  unfold volumeFlags; split <;> simp [flagWeightSum, severityPoints]

theorem highRiskFlags_weight_le (s : Nat) (rdl : Option Nat) :
    flagWeightSum (highRiskFlags s rdl) ≤ 50 := by
  unfold highRiskFlags; split <;> simp [flagWeightSum, severityPoints]

theorem patternFlags_weight_le (p : UserProfile) (s : Nat) :
    flagWeightSum (patternFlags p s) ≤ 5 := by
  unfold patternFlags; split <;> simp [flagWeightSum, severityPoints]

theorem kycFlags_weight_le (p : UserProfile) (s u : Nat) :
    flagWeightSum (kycFlags p s u) ≤ 15 := by
  unfold kycFlags
  split
  · split <;> simp [flagWeightSum, severityPoints]
  · split <;> simp [flagWeightSum, severityPoints]
  · simp [flagWeightSum, severityPoints]

theorem evalFlags_weight_le (cfg : ComplianceConfig) (p : UserProfile)
    (s u : Nat) (rdl : Option Nat) :
    flagWeightSum (evalFlags cfg p s u rdl) ≤ 105 := by
  unfold evalFlags
  have h1 := highValueFlags_weight_le cfg s u
  have h2 := velocityFlags_weight_le cfg p s
  have h3 := volumeFlags_weight_le cfg p s u
  have h4 := highRiskFlags_weight_le s rdl
  have h5 := patternFlags_weight_le p s
  have h6 := kycFlags_weight_le p s u
  simp only [flagWeightSum_append]
  omega

/-! ### Score invariant of reachable profiles -/

/-- Risk-score bounds preserved by every operation of the program: the score
fits far below the `u32` wrap, and an unblocked profile sits below `2 ^ 31`,
so the unchecked score addition of an evaluation cannot wrap on any profile
the program can actually produce. -/
def ScoreInv (p : UserProfile) : Prop :=
  p.risk_score ≤ 2147483752 ∧
    (p.is_blocked = false → p.risk_score ≤ 2147483647)

theorem scoreInv_dailyReset (p : UserProfile) (s : Nat) (h : ScoreInv p) :
    ScoreInv (dailyReset p s) := by
  constructor
  · simpa using h.1
  · intro hb
    simp only [dailyReset_is_blocked] at hb
    simpa using h.2 hb

theorem scoreInv_monitor (cfg : ComplianceConfig) (p : UserProfile)
    (slot lam rcp : Nat) (oracle rdl : Option Nat) (h : ScoreInv p) :
    ScoreInv (monitor_transaction cfg p slot lam rcp oracle rdl).1 := by
  cases oracle with
  | none =>
      simpa [monitor_transaction] using scoreInv_dailyReset p slot h
  | some usd =>
      by_cases hb : p.is_blocked = true
      · simpa [monitor_transaction, hb] using scoreInv_dailyReset p slot h
      · have hps : p.is_blocked = false := by simpa using hb
        have hsc : p.risk_score ≤ 2147483647 := h.2 hps
        have hw := evalFlags_weight_le cfg (dailyReset p slot) slot usd rdl
        have hlt : p.risk_score +
            flagWeightSum (evalFlags cfg (dailyReset p slot) slot usd rdl) <
              U32MOD := by
          unfold U32MOD; omega
        have hmod : (p.risk_score +
            flagWeightSum (evalFlags cfg (dailyReset p slot) slot usd rdl)) %
              U32MOD =
            p.risk_score +
              flagWeightSum (evalFlags cfg (dailyReset p slot) slot usd rdl) :=
          Nat.mod_eq_of_lt hlt
        simp only [monitor_transaction, dailyReset_is_blocked, hps,
          Bool.false_eq_true, if_false]
        constructor
        · simp only [evalProfile, updateProfile_risk_score,
            dailyReset_risk_score, hmod]
          omega
        · intro hblk
          simp only [evalProfile, updateProfile_is_blocked,
            dailyReset_risk_score, dailyReset_is_blocked, hmod] at hblk
          simp only [evalProfile, updateProfile_risk_score,
            dailyReset_risk_score, hmod]
          by_cases hgt : p.risk_score +
              flagWeightSum (evalFlags cfg (dailyReset p slot) slot usd rdl) >
                100
          · simp [hgt] at hblk
          · omega

theorem scoreInv_ai (cfg : ComplianceConfig) (p : UserProfile)
    (caller ai_score : Nat) (inds : List String) (slot : Nat)
    (q : UserProfile)
    (hq : update_risk_score_ai cfg p caller ai_score inds slot = Except.ok q) :
    ScoreInv q := by
  unfold update_risk_score_ai at hq
  split at hq
  · have hqe : q = { p with
        risk_score := ((p.risk_score + ai_score) % U32MOD) / 2
        flags := p.flags ++ inds.map (fun d =>
          { flag_type := FlagType.aiAnomaly,
            severity :=
              if ai_score > 75 then FlagSeverity.critical
              else if ai_score > 50 then FlagSeverity.high
              else if ai_score > 25 then FlagSeverity.medium
              else FlagSeverity.low,
            description := d, detected_at_slot := slot })
        is_blocked := if ai_score > 90 then true else p.is_blocked } := by
      cases hq; rfl
    have hmod : (p.risk_score + ai_score) % U32MOD < U32MOD :=
      Nat.mod_lt _ (by unfold U32MOD; omega)
    have hdiv : ((p.risk_score + ai_score) % U32MOD) / 2 ≤ 2147483647 := by
      unfold U32MOD at hmod ⊢; omega
    constructor
    · rw [hqe]; simpa using le_trans hdiv (by omega)
    · intro _; rw [hqe]; simpa using hdiv
  · cases hq

theorem scoreInv_unblock (cfg : ComplianceConfig) (p : UserProfile)
    (caller : Nat) (reason : String) (q : UserProfile) (h : ScoreInv p)
    (hq : unblock_user cfg p caller reason = Except.ok q) : ScoreInv q := by
  unfold unblock_user at hq
  split at hq
  · have hqe : q = { p with
        is_blocked := false
        risk_score := p.risk_score / 2 } := by cases hq; rfl
    have := h.1
    constructor
    · rw [hqe]; show p.risk_score / 2 ≤ 2147483752; omega
    · intro _; rw [hqe]; show p.risk_score / 2 ≤ 2147483647; omega
  · cases hq

theorem reachable_scoreInv (p : UserProfile) (h : Reachable p) : ScoreInv p := by
  induction h with
  | register a u d k s p hp =>
      unfold register_user_profile at hp
      cases hp
      exact ⟨by simp, fun _ => by simp⟩
  | monitor cfg p slot lam rcp oracle rdl p' out _ heq ih =>
      have := scoreInv_monitor cfg p slot lam rcp oracle rdl ih
      rw [heq] at this
      exact this
  | ai cfg p caller ai_score inds slot p' _ heq _ =>
      exact scoreInv_ai cfg p caller ai_score inds slot p' heq
  | unblock cfg p caller reason p' _ heq ih =>
      exact scoreInv_unblock cfg p caller reason p' ih heq

/-! ### Unfolding lemmas for the three paths of `monitor_transaction` -/

theorem monitor_oracle_failure (cfg : ComplianceConfig) (p : UserProfile)
    (slot lam rcp : Nat) (rdl : Option Nat) :
    monitor_transaction cfg p slot lam rcp Option.none rdl =
      (dailyReset p slot,
       Except.error FraudDetectionError.invalidPriceOracle) := rfl

theorem monitor_blocked (cfg : ComplianceConfig) (p : UserProfile)
    (slot lam rcp usd : Nat) (rdl : Option Nat) (hb : p.is_blocked = true) :
    monitor_transaction cfg p slot lam rcp (Option.some usd) rdl =
      (dailyReset p slot, Except.ok (TransactionStatus.blocked, [])) := by
  simp [monitor_transaction, hb]

theorem monitor_not_blocked (cfg : ComplianceConfig) (p : UserProfile)
    (slot lam rcp usd : Nat) (rdl : Option Nat) (hb : p.is_blocked = false) :
    monitor_transaction cfg p slot lam rcp (Option.some usd) rdl =
      (evalProfile cfg p slot usd rdl,
       Except.ok (evalStatus cfg p slot usd rdl,
         evalFlags cfg (dailyReset p slot) slot usd rdl)) := by
  simp [monitor_transaction, hb]

/-- Block status after a non-short-circuited evaluation is exactly the
auto-block test on the stored score. -/
theorem evalProfile_is_blocked_iff (cfg : ComplianceConfig) (p : UserProfile)
    (slot usd : Nat) (rdl : Option Nat) (hb : p.is_blocked = false) :
    ((evalProfile cfg p slot usd rdl).is_blocked = true ↔
      (evalProfile cfg p slot usd rdl).risk_score > 100) := by
  have key : (evalProfile cfg p slot usd rdl).risk_score =
      (p.risk_score +
        flagWeightSum (evalFlags cfg (dailyReset p slot) slot usd rdl)) %
          U32MOD := by
    simp [evalProfile]
  constructor
  · intro h1
    by_cases hgt : (p.risk_score +
        flagWeightSum (evalFlags cfg (dailyReset p slot) slot usd rdl)) %
          U32MOD > 100
    · rw [key]; exact hgt
    · exfalso
      simp [evalProfile, hgt, hb] at h1
  · intro h2
    rw [key] at h2
    simp [evalProfile, h2]

/-! ### Concrete fixtures for witnesses and counterexamples -/

/-- Concrete configuration: authority key 1, high-value threshold 10000 USD,
velocity threshold 5, daily-volume cap 100000 USD. -/
def cfgB : ComplianceConfig :=
  { authority := 1, high_value_threshold_usd := 10000, velocity_threshold := 5,
    max_daily_volume_usd := 100000, is_active := true,
    total_flagged_transactions := 0, total_blocked_transactions := 0,
    last_updated_slot := 0 }

/-- Fresh profile as `register_user_profile` creates it at slot 1000 for
user 7 with KYC level `None`. -/
def pFresh : UserProfile :=
  { user := 7, sns_domain := "alice.sol", kyc_level := KYCLevel.none,
    risk_score := 0, total_transaction_count := 0, total_volume_usd := 0,
    daily_transaction_count := 0, daily_volume_usd := 0,
    last_transaction_slot := 0, last_daily_reset_slot := 1000,
    is_flagged := false, is_blocked := false, flags := [] }

/-- Fresh profile with Enhanced KYC (no KYC rule can fire). -/
def pFreshE : UserProfile := { pFresh with kyc_level := KYCLevel.enhanced }

/-- Unblocked profile sitting just under the auto-block threshold. -/
def p95 : UserProfile := { pFresh with risk_score := 95 }

/-- Profile already blocked with score 120. -/
def pBlocked : UserProfile :=
  { pFresh with is_blocked := true, risk_score := 120 }

/-! ### Claim C1 -/

/-- Claim C1, counterexample: Scenario B exactly as the claim fixes it
(fresh profile, KYC `None`, single 1500 USD transaction against `cfgB`)
yields verdict `Blocked` and risk score 15, but the persistent `is_blocked`
field stays `false`, contradicting the claimed `is_blocked = true`: a
rule-forced `should_block` never writes `is_blocked`, only the score
threshold at lines 243-247 does. -/
theorem C1_scenarioB_counterexample :
    (monitor_transaction cfgB pFresh 1000 5 3 (Option.some 1500)
        Option.none).1.is_blocked = false ∧
    (monitor_transaction cfgB pFresh 1000 5 3 (Option.some 1500)
        Option.none).1.risk_score = 15 ∧
    (monitor_transaction cfgB pFresh 1000 5 3 (Option.some 1500)
        Option.none).2.map Prod.fst = Except.ok TransactionStatus.blocked :=
  ⟨rfl, rfl, rfl⟩

/-- Claim C1, amended: for any not-yet-blocked profile with KYC level `None`
and a USD amount above 1000, the KYC rule forces the verdict `Blocked`, the
KYC flag (High severity) is among the flags raised, and the profile's
persistent `is_blocked` field is set in that evaluation exactly when the
updated risk score exceeds 100 — a rule-forced `should_block` alone does not
transition the stored state to blocked (in Scenario B the score is 15, so
`is_blocked` stays `false`). -/
theorem C1_kyc_none_rule_block_amended (cfg : ComplianceConfig)
    (p : UserProfile) (slot lam rcp usd : Nat) (rdl : Option Nat)
    (hb : p.is_blocked = false) (hk : p.kyc_level = KYCLevel.none)
    (hu : usd > 1000) :
    (monitor_transaction cfg p slot lam rcp (Option.some usd) rdl).2.map
        Prod.fst = Except.ok TransactionStatus.blocked ∧
    ({ flag_type := FlagType.kycRequired, severity := FlagSeverity.high,
       description := "KYC required for transactions over $1000",
       detected_at_slot := slot } : FraudFlag) ∈
      (evalFlags cfg (dailyReset p slot) slot usd rdl) ∧
    ((monitor_transaction cfg p slot lam rcp (Option.some usd)
          rdl).1.is_blocked = true ↔
      (monitor_transaction cfg p slot lam rcp (Option.some usd)
          rdl).1.risk_score > 100) := by
  rw [monitor_not_blocked cfg p slot lam rcp usd rdl hb]
  have hkd : (dailyReset p slot).kyc_level = KYCLevel.none := by
    rw [dailyReset_kyc_level, hk]
  have hkn : kycNoneHit (dailyReset p slot) usd = true := by
    unfold kycNoneHit; rw [hkd]; simpa using hu
  have hsb : ruleShouldBlock cfg (dailyReset p slot) usd rdl = true := by
    unfold ruleShouldBlock; rw [hkn]; simp
  refine ⟨?_, ?_, ?_⟩
  · simp [evalStatus, hsb, Except.map]
  · unfold evalFlags kycFlags
    rw [hkd]
    simp [hu]
  · exact evalProfile_is_blocked_iff cfg p slot usd rdl hb

/-- Claim C1, witness for the amended theorem at Scenario B's numbers. -/
theorem C1_kyc_none_rule_block_amended_witness :
    (monitor_transaction cfgB pFresh 1000 5 3 (Option.some 1500)
        Option.none).2.map Prod.fst = Except.ok TransactionStatus.blocked ∧
    ({ flag_type := FlagType.kycRequired, severity := FlagSeverity.high,
       description := "KYC required for transactions over $1000",
       detected_at_slot := 1000 } : FraudFlag) ∈
      (evalFlags cfgB (dailyReset pFresh 1000) 1000 1500 Option.none) ∧
    ((monitor_transaction cfgB pFresh 1000 5 3 (Option.some 1500)
          Option.none).1.is_blocked = true ↔
      (monitor_transaction cfgB pFresh 1000 5 3 (Option.some 1500)
          Option.none).1.risk_score > 100) :=
  C1_kyc_none_rule_block_amended cfgB pFresh 1000 5 3 1500 Option.none rfl rfl
    (by decide)

/-! ### Claim C2 -/

/-- Claim C2, counterexample: the source consults the price oracle (line 123)
before the blocked check (line 129), so an evaluation of a blocked profile
with a failing oracle returns the `InvalidPriceOracle` error, not the verdict
`Blocked` the claim promises for every evaluation of a blocked profile. -/
theorem C2_blocked_oracle_failure_counterexample :
    pBlocked.is_blocked = true ∧
    (monitor_transaction cfgB pBlocked 1000 5 3 Option.none Option.none).2 =
      Except.error FraudDetectionError.invalidPriceOracle :=
  ⟨rfl, rfl⟩

/-- Claim C2, amended: provided the oracle conversion succeeds, an evaluation
of a blocked profile returns verdict `Blocked` with no flags raised and no
profile mutation beyond the idempotent step-1 daily-window reset (score,
flag history, lifetime counters and both status bits untouched); the profile
stays blocked afterwards, so this repeats until an explicit admin unblock. -/
theorem C2_blocked_short_circuit_amended (cfg : ComplianceConfig)
    (p : UserProfile) (slot lam rcp usd : Nat) (rdl : Option Nat)
    (hb : p.is_blocked = true) :
    monitor_transaction cfg p slot lam rcp (Option.some usd) rdl =
      (dailyReset p slot, Except.ok (TransactionStatus.blocked, [])) ∧
    (dailyReset p slot).is_blocked = true ∧
    (dailyReset p slot).risk_score = p.risk_score ∧
    (dailyReset p slot).flags = p.flags ∧
    (dailyReset p slot).is_flagged = p.is_flagged ∧
    (dailyReset p slot).total_transaction_count = p.total_transaction_count ∧
    (dailyReset p slot).total_volume_usd = p.total_volume_usd :=
  ⟨monitor_blocked cfg p slot lam rcp usd rdl hb, by simpa using hb,
   by simp, by simp, by simp, by simp, by simp⟩

/-- Claim C2, witness for the amended theorem at a concrete blocked profile
with a succeeding oracle. -/
theorem C2_blocked_short_circuit_amended_witness :
    monitor_transaction cfgB pBlocked 2000 5 3 (Option.some 500) Option.none =
      (dailyReset pBlocked 2000,
       Except.ok (TransactionStatus.blocked, [])) ∧
    (dailyReset pBlocked 2000).is_blocked = true ∧
    (dailyReset pBlocked 2000).risk_score = pBlocked.risk_score ∧
    (dailyReset pBlocked 2000).flags = pBlocked.flags ∧
    (dailyReset pBlocked 2000).is_flagged = pBlocked.is_flagged ∧
    (dailyReset pBlocked 2000).total_transaction_count =
      pBlocked.total_transaction_count ∧
    (dailyReset pBlocked 2000).total_volume_usd = pBlocked.total_volume_usd :=
  C2_blocked_short_circuit_amended cfgB pBlocked 2000 5 3 500 Option.none rfl

/-! ### Claim C3 -/

/-- Claim C3: for every evaluation of a not-yet-blocked profile whose updated
risk score exceeds 100, the profile is auto-blocked and the verdict is
`Blocked`, regardless of which rules fired (lines 243-262). -/
theorem C3_auto_block_threshold (cfg : ComplianceConfig) (p : UserProfile)
    (slot lam rcp usd : Nat) (rdl : Option Nat)
    (hb : p.is_blocked = false)
    (hs : (monitor_transaction cfg p slot lam rcp (Option.some usd)
        rdl).1.risk_score > 100) :
    (monitor_transaction cfg p slot lam rcp (Option.some usd)
        rdl).1.is_blocked = true ∧
    (monitor_transaction cfg p slot lam rcp (Option.some usd) rdl).2.map
        Prod.fst = Except.ok TransactionStatus.blocked := by
  rw [monitor_not_blocked cfg p slot lam rcp usd rdl hb] at hs ⊢
  constructor
  · exact (evalProfile_is_blocked_iff cfg p slot usd rdl hb).2 hs
  · have hd : decide ((evalProfile cfg p slot usd rdl).risk_score > 100) =
        true := decide_eq_true hs
    simp [evalStatus, hd, Except.map]

/-- Claim C3, witness: score 95 plus the 15-point KYC flag crosses 100 and
blocks. -/
theorem C3_auto_block_threshold_witness :
    (monitor_transaction cfgB p95 1000 5 3 (Option.some 1500)
        Option.none).1.is_blocked = true ∧
    (monitor_transaction cfgB p95 1000 5 3 (Option.some 1500)
        Option.none).2.map Prod.fst = Except.ok TransactionStatus.blocked :=
  C3_auto_block_threshold cfgB p95 1000 5 3 1500 Option.none rfl (by decide)

/-! ### Claim C5 -/

/-- Claim C5: when the price-oracle conversion fails, `monitor_transaction`
returns the `InvalidPriceOracle` error, and the profile is left exactly as
the idempotent step-1 daily-window reset leaves it — no counter increment,
no score change, no flag append, and no change to either status bit. -/
theorem C5_oracle_failure_atomicity (cfg : ComplianceConfig) (p : UserProfile)
    (slot lam rcp : Nat) (rdl : Option Nat) :
    monitor_transaction cfg p slot lam rcp Option.none rdl =
      (dailyReset p slot,
       Except.error FraudDetectionError.invalidPriceOracle) ∧
    (dailyReset p slot).risk_score = p.risk_score ∧
    (dailyReset p slot).flags = p.flags ∧
    (dailyReset p slot).is_blocked = p.is_blocked ∧
    (dailyReset p slot).is_flagged = p.is_flagged ∧
    (dailyReset p slot).total_transaction_count = p.total_transaction_count ∧
    (dailyReset p slot).total_volume_usd = p.total_volume_usd ∧
    (dailyReset p slot).last_transaction_slot = p.last_transaction_slot :=
  ⟨rfl, by simp, by simp, by simp, by simp, by simp, by simp, by simp⟩

/-! ### Claim C4 -/

/-- Claim C4: for every successful evaluation of a reachable, not-yet-blocked
profile, the stored risk score afterwards equals the prior risk score plus
the sum of the severity weights (Low 1, Medium 5, High 15, Critical 50) of
exactly the flags raised in that evaluation — the flags returned with the
verdict and appended to the profile history.  Reachability supplies the
score bound under which the source's unchecked `u32` addition cannot wrap. -/
theorem C4_score_accumulation_flag_sum (cfg : ComplianceConfig)
    (p : UserProfile) (slot lam rcp usd : Nat) (rdl : Option Nat)
    (hr : Reachable p) (hb : p.is_blocked = false) :
    (monitor_transaction cfg p slot lam rcp (Option.some usd) rdl).2 =
      Except.ok (evalStatus cfg p slot usd rdl,
        evalFlags cfg (dailyReset p slot) slot usd rdl) ∧
    (monitor_transaction cfg p slot lam rcp (Option.some usd)
        rdl).1.risk_score =
      p.risk_score +
        flagWeightSum (evalFlags cfg (dailyReset p slot) slot usd rdl) ∧
    (monitor_transaction cfg p slot lam rcp (Option.some usd) rdl).1.flags =
      p.flags ++ evalFlags cfg (dailyReset p slot) slot usd rdl := by
  rw [monitor_not_blocked cfg p slot lam rcp usd rdl hb]
  have hsc : p.risk_score ≤ 2147483647 := (reachable_scoreInv p hr).2 hb
  have hw := evalFlags_weight_le cfg (dailyReset p slot) slot usd rdl
  have hlt : p.risk_score +
      flagWeightSum (evalFlags cfg (dailyReset p slot) slot usd rdl) <
        U32MOD := by
    unfold U32MOD; omega
  have key : (evalProfile cfg p slot usd rdl).risk_score =
      (p.risk_score +
        flagWeightSum (evalFlags cfg (dailyReset p slot) slot usd rdl)) %
          U32MOD := by
    simp [evalProfile]
  refine ⟨rfl, ?_, ?_⟩
  · rw [key]; exact Nat.mod_eq_of_lt hlt
  · simp [evalProfile]

/-- Claim C4, witness at a freshly registered profile (reachable by the
`register` constructor) evaluating Scenario B's transaction. -/
theorem C4_score_accumulation_flag_sum_witness :
    (monitor_transaction cfgB pFresh 1000 5 3 (Option.some 1500)
        Option.none).2 =
      Except.ok (evalStatus cfgB pFresh 1000 1500 Option.none,
        evalFlags cfgB (dailyReset pFresh 1000) 1000 1500 Option.none) ∧
    (monitor_transaction cfgB pFresh 1000 5 3 (Option.some 1500)
        Option.none).1.risk_score =
      pFresh.risk_score +
        flagWeightSum (evalFlags cfgB (dailyReset pFresh 1000) 1000 1500
          Option.none) ∧
    (monitor_transaction cfgB pFresh 1000 5 3 (Option.some 1500)
        Option.none).1.flags =
      pFresh.flags ++
        evalFlags cfgB (dailyReset pFresh 1000) 1000 1500 Option.none :=
  C4_score_accumulation_flag_sum cfgB pFresh 1000 5 3 1500 Option.none
    (Reachable.register 5 7 "alice.sol" KYCLevel.none 1000 pFresh rfl) rfl

/-! ### Claim C6 -/

/-- Claim C6, counterexample: `register_user_profile` performs no authority
check — its accounts context does not even reference `ComplianceConfig` — so
a caller distinct from the configured authority (caller 99, authority 1)
registers a profile successfully instead of failing with
`UnauthorizedAccess`. -/
theorem C6_register_no_auth_check_counterexample :
    (99 : Nat) ≠ cfgB.authority ∧
    register_user_profile 99 8 "bob.sol" KYCLevel.basic 0 =
      Except.ok
        { user := 8, sns_domain := "bob.sol", kyc_level := KYCLevel.basic,
          risk_score := 0, total_transaction_count := 0, total_volume_usd := 0,
          daily_transaction_count := 0, daily_volume_usd := 0,
          last_transaction_slot := 0, last_daily_reset_slot := 0,
          is_flagged := false, is_blocked := false, flags := [] } :=
  ⟨by decide, rfl⟩

/-- Claim C6, amended: the four authority-gated admin actions —
`add_high_risk_address`, `whitelist_address`, `update_risk_score_ai` and
`unblock_user` — all fail with `UnauthorizedAccess`, leaving state unchanged,
for every caller other than `ComplianceConfig.authority`;
`register_user_profile`, by contrast, carries no authority check and
succeeds for any caller. -/
theorem C6_admin_auth_amended (cfg : ComplianceConfig) (caller : Nat)
    (h : caller ≠ cfg.authority) :
    (∀ addr cat lvl desc slot,
      add_high_risk_address cfg caller addr cat lvl desc slot =
        Except.error FraudDetectionError.unauthorizedAccess) ∧
    (∀ addr slot, whitelist_address cfg caller addr slot =
      Except.error FraudDetectionError.unauthorizedAccess) ∧
    (∀ p ai inds slot, update_risk_score_ai cfg p caller ai inds slot =
      Except.error FraudDetectionError.unauthorizedAccess) ∧
    (∀ p reason, unblock_user cfg p caller reason =
      Except.error FraudDetectionError.unauthorizedAccess) := by
  refine ⟨fun addr cat lvl desc slot => ?_, fun addr slot => ?_,
    fun p ai inds slot => ?_, fun p reason => ?_⟩
  · simp [add_high_risk_address, h]
  · simp [whitelist_address, h]
  · simp [update_risk_score_ai, h]
  · simp [unblock_user, h]

/-- Claim C6, witness for the amended theorem: caller 99 against authority 1
is rejected by all four gated actions. -/
theorem C6_admin_auth_amended_witness :
    add_high_risk_address cfgB 99 5 RiskCategory.sanctions RiskLevel.high
        "mixer" 0 = Except.error FraudDetectionError.unauthorizedAccess ∧
    whitelist_address cfgB 99 6 0 =
      Except.error FraudDetectionError.unauthorizedAccess ∧
    update_risk_score_ai cfgB pFresh 99 80 [] 0 =
      Except.error FraudDetectionError.unauthorizedAccess ∧
    unblock_user cfgB pBlocked 99 "manual review" =
      Except.error FraudDetectionError.unauthorizedAccess := by
  have h := C6_admin_auth_amended cfgB 99 (by decide)
  exact ⟨h.1 5 RiskCategory.sanctions RiskLevel.high "mixer" 0, h.2.1 6 0,
    h.2.2.1 pFresh 80 [] 0, h.2.2.2 pBlocked "manual review"⟩

/-! ### Claim C7 -/

/-- Claim C7, counterexample: an authority-called AI blend with
`ai_score = 80` produces a flag of severity `Critical` — the source's
thresholds (lines 319-322) are `>75` Critical, `>50` High, `>25` Medium —
whereas the claim's thresholds (`>90` Critical, `>75` High) demand `High`
at 80; blocking is decided separately and does not occur (80 is not above
90). -/
theorem C7_ai_severity_counterexample :
    update_risk_score_ai cfgB pFresh 1 80 ["anomaly-a"] 0 =
      Except.ok { pFresh with
        risk_score := 40
        flags := [{ flag_type := FlagType.aiAnomaly,
                    severity := FlagSeverity.critical,
                    description := "anomaly-a",
                    detected_at_slot := 0 }] } ∧
    FlagSeverity.critical ≠ FlagSeverity.high ∧ ¬((80 : Nat) > 90) :=
  ⟨rfl, by decide, by decide⟩

/-- Claim C7, amended: for every authority-called blend, the risk score
becomes the truncating integer average of the wrapping `u32` sum
`(risk_score + ai_score)`, one AI-anomaly flag is appended per anomaly
description with severity Critical when `ai_score > 75`, High when
`ai_score > 50`, Medium when `ai_score > 25`, Low otherwise, and
`is_blocked` is set exactly when `ai_score > 90` (independently of the flag
severity and of whether any anomaly was supplied). -/
theorem C7_blend_ai_score_amended (cfg : ComplianceConfig) (p : UserProfile)
    (caller ai : Nat) (inds : List String) (slot : Nat)
    (h : caller = cfg.authority) :
    update_risk_score_ai cfg p caller ai inds slot =
      Except.ok { p with
        risk_score := ((p.risk_score + ai) % U32MOD) / 2
        flags := p.flags ++ inds.map (fun d =>
          { flag_type := FlagType.aiAnomaly,
            severity :=
              if ai > 75 then FlagSeverity.critical
              else if ai > 50 then FlagSeverity.high
              else if ai > 25 then FlagSeverity.medium
              else FlagSeverity.low,
            description := d, detected_at_slot := slot })
        is_blocked := if ai > 90 then true else p.is_blocked } := by
  simp [update_risk_score_ai, h]

/-- Claim C7, witness for the amended theorem at `ai_score = 60` (High
severity band of the source, no block). -/
theorem C7_blend_ai_score_amended_witness :
    update_risk_score_ai cfgB p95 1 60 ["odd-pattern"] 5 =
      Except.ok { p95 with
        risk_score := ((p95.risk_score + 60) % U32MOD) / 2
        flags := p95.flags ++ (["odd-pattern"] : List String).map (fun d =>
          { flag_type := FlagType.aiAnomaly,
            severity :=
              if (60 : Nat) > 75 then FlagSeverity.critical
              else if (60 : Nat) > 50 then FlagSeverity.high
              else if (60 : Nat) > 25 then FlagSeverity.medium
              else FlagSeverity.low,
            description := d, detected_at_slot := 5 })
        is_blocked := if (60 : Nat) > 90 then true else p95.is_blocked } :=
  C7_blend_ai_score_amended cfgB p95 1 60 ["odd-pattern"] 5 rfl

/-! ### Claim C8 -/

/-- Only the high-risk-recipient rule can emit a `HighRiskRecipient` flag,
and it fires exactly on a supplied non-empty remaining account. -/
theorem highRisk_mem_evalFlags (cfg : ComplianceConfig) (q : UserProfile)
    (s u : Nat) (rdl : Option Nat) (f : FraudFlag)
    (hf : f ∈ evalFlags cfg q s u rdl)
    (hft : f.flag_type = FlagType.highRiskRecipient) :
    highRiskHit rdl = true := by
  unfold evalFlags at hf
  simp only [List.mem_append] at hf
  rcases hf with ((((h | h) | h) | h) | h) | h
  · unfold highValueFlags at h; split at h <;> simp_all
  · unfold velocityFlags at h; split at h <;> simp_all
  · unfold volumeFlags at h; split at h <;> simp_all
  · unfold highRiskFlags at h; split at h <;> simp_all
  · unfold patternFlags at h; split at h <;> simp_all
  · unfold kycFlags at h
    split at h <;> (try split at h) <;> simp_all

/-- When the remaining account carries data, the Critical high-risk flag is
among the evaluation's flags. -/
theorem highRisk_flag_of_hit (cfg : ComplianceConfig) (q : UserProfile)
    (s u : Nat) (rdl : Option Nat) (h : highRiskHit rdl = true) :
    ({ flag_type := FlagType.highRiskRecipient,
       severity := FlagSeverity.critical,
       description := "Transaction to high-risk address detected",
       detected_at_slot := s } : FraudFlag) ∈ evalFlags cfg q s u rdl := by
  unfold evalFlags highRiskFlags
  simp [List.mem_append, h]

/-- Inactive registry entry used by the C8 counterexample. -/
def rrInactive : RiskRegistry :=
  { address := 3, risk_category := RiskCategory.sanctions,
    risk_level := RiskLevel.low, description := "sanctioned entity",
    added_at_slot := 0, is_active := false }

/-- Claim C8, counterexample: the source's rule-4 check (lines 171-183) only
tests that remaining account 0 has non-empty data; it never reads the
entry's `is_active` field and never consults the Whitelist (which appears
nowhere in `monitor_transaction`).  Passing the account of the deactivated
entry `rrInactive` — whose data length is the allocated `RiskRegistry::LEN`
regardless of its fields — still raises the Critical flag and forces
`Blocked`, contradicting the claimed "present and active" condition. -/
theorem C8_inactive_registry_counterexample :
    rrInactive.is_active = false ∧
    RiskRegistryLEN > 0 ∧
    (monitor_transaction cfgB pFreshE 1000 5 3 (Option.some 100)
        (Option.some RiskRegistryLEN)).2 =
      Except.ok (TransactionStatus.blocked,
        [{ flag_type := FlagType.highRiskRecipient,
           severity := FlagSeverity.critical,
           description := "Transaction to high-risk address detected",
           detected_at_slot := 1000 }]) :=
  ⟨rfl, by decide, rfl⟩

/-- Claim C8, amended: the high-risk-recipient rule raises its
Critical-severity flag exactly when a remaining account with non-empty data
is supplied for the evaluation, and whenever it fires the verdict is
`Blocked`; the rule reads neither the registry entry's `active` field nor
any Whitelist entry (the whitelist is not an input of the evaluation at
all). -/
theorem C8_high_risk_rule_amended (cfg : ComplianceConfig) (p : UserProfile)
    (slot lam rcp usd : Nat) (rdl : Option Nat) :
    ((∃ f ∈ evalFlags cfg (dailyReset p slot) slot usd rdl,
        f.flag_type = FlagType.highRiskRecipient ∧
          f.severity = FlagSeverity.critical) ↔ highRiskHit rdl = true) ∧
    (highRiskHit rdl = true →
      (monitor_transaction cfg p slot lam rcp (Option.some usd) rdl).2.map
          Prod.fst = Except.ok TransactionStatus.blocked) := by
  constructor
  · constructor
    · rintro ⟨f, hf, hft, _⟩
      exact highRisk_mem_evalFlags cfg (dailyReset p slot) slot usd rdl f hf
        hft
    · intro h
      exact ⟨_, highRisk_flag_of_hit cfg (dailyReset p slot) slot usd rdl h,
        rfl, rfl⟩
  · intro hhit
    by_cases hb : p.is_blocked = true
    · rw [monitor_blocked cfg p slot lam rcp usd rdl hb]
      simp [Except.map]
    · have hb' : p.is_blocked = false := by simpa using hb
      rw [monitor_not_blocked cfg p slot lam rcp usd rdl hb']
      have hsb : ruleShouldBlock cfg (dailyReset p slot) usd rdl = true := by
        unfold ruleShouldBlock; rw [hhit]; simp
      simp [evalStatus, hsb, Except.map]

/-- Claim C8, witness for the amended theorem: a supplied registry account of
allocated length raises the flag and blocks the transaction. -/
theorem C8_high_risk_rule_amended_witness :
    (∃ f ∈ evalFlags cfgB (dailyReset pFreshE 1000) 1000 100
        (Option.some RiskRegistryLEN),
      f.flag_type = FlagType.highRiskRecipient ∧
        f.severity = FlagSeverity.critical) ∧
    (monitor_transaction cfgB pFreshE 1000 5 3 (Option.some 100)
        (Option.some RiskRegistryLEN)).2.map Prod.fst =
      Except.ok TransactionStatus.blocked := by
  have h := C8_high_risk_rule_amended cfgB pFreshE 1000 5 3 100
    (Option.some RiskRegistryLEN)
  exact ⟨h.1.2 (by decide), h.2 (by decide)⟩

/-! ### Claim C9 -/

/-- Configuration for the overflow scenario: 1000 USD daily-volume cap. -/
def cfgWrap : ComplianceConfig :=
  { authority := 1, high_value_threshold_usd := 1000000,
    velocity_threshold := 10, max_daily_volume_usd := 1000, is_active := true,
    total_flagged_transactions := 0, total_blocked_transactions := 0,
    last_updated_slot := 0 }

/-- Profile whose accumulated daily volume sits at the `u64` maximum. -/
def pWrap : UserProfile :=
  { user := 7, sns_domain := "whale.sol", kyc_level := KYCLevel.enhanced,
    risk_score := 0, total_transaction_count := 3,
    total_volume_usd := 18446744073709551615, daily_transaction_count := 3,
    daily_volume_usd := 18446744073709551615, last_transaction_slot := 1000,
    last_daily_reset_slot := 1000, is_flagged := false, is_blocked := false,
    flags := [] }

/-- Claim C9 (code bug): the evaluation's arithmetic does not saturate.  The
projected-volume addition of line 159 (and the counter updates of lines
224-228) are unchecked `u64`/`u32` additions, which wrap in a release build.
At daily volume `u64::MAX` with one more USD, the projected volume wraps to
0, the excessive-volume rule stays silent although the true daily volume is
astronomically above the 1000 USD cap, the verdict is `Approved`, and the
stored daily volume is silently reset to 0 by the wrap. -/
theorem C9_volume_wrap_failing_input :
    pWrap.daily_volume_usd + 1 > cfgWrap.max_daily_volume_usd ∧
    projectedDailyVolume pWrap 1 = 0 ∧
    (monitor_transaction cfgWrap pWrap 2000 5 3 (Option.some 1)
        Option.none).2 = Except.ok (TransactionStatus.approved, []) ∧
    (monitor_transaction cfgWrap pWrap 2000 5 3 (Option.some 1)
        Option.none).1.daily_volume_usd = 0 :=
  ⟨by decide, rfl, rfl, rfl⟩

/-! ### Claim C10 -/

/-- Claim C10, counterexample: starting from a freshly registered profile
(score 0) a single authority AI blend with `ai_score = 95` leaves the
profile blocked at score 47 — its risk score was 0 and then 47, never at or
above the 100 threshold, refuting the claimed invariant that `is_blocked`
implies the score once reached the threshold. -/
theorem C10_ai_block_without_threshold_counterexample :
    pFresh.risk_score < 100 ∧
    update_risk_score_ai cfgB pFresh 1 95 [] 0 =
      Except.ok { pFresh with risk_score := 47, is_blocked := true } ∧
    (47 : Nat) < 100 :=
  ⟨by decide, rfl, by decide⟩

/-- Claim C10, amended: a profile can become blocked in exactly two ways —
an evaluation whose updated risk score exceeds 100, or an authority AI blend
with `ai_score > 90` (which blocks without the profile's score ever reaching
the threshold); unblocking and registration always leave the profile
unblocked. -/
theorem C10_block_provenance_amended :
    (∀ (cfg : ComplianceConfig) (p : UserProfile) (slot lam rcp : Nat)
        (oracle rdl : Option Nat), p.is_blocked = false →
      (monitor_transaction cfg p slot lam rcp oracle rdl).1.is_blocked =
        true →
      (monitor_transaction cfg p slot lam rcp oracle rdl).1.risk_score >
        100) ∧
    (∀ (cfg : ComplianceConfig) (p : UserProfile) (caller ai : Nat)
        (inds : List String) (slot : Nat) (q : UserProfile),
      p.is_blocked = false →
      update_risk_score_ai cfg p caller ai inds slot = Except.ok q →
      q.is_blocked = true → ai > 90) ∧
    (∀ (cfg : ComplianceConfig) (p : UserProfile) (caller : Nat)
        (reason : String) (q : UserProfile),
      unblock_user cfg p caller reason = Except.ok q →
      q.is_blocked = false) ∧
    (∀ (a u : Nat) (d : String) (k : KYCLevel) (s : Nat) (q : UserProfile),
      register_user_profile a u d k s = Except.ok q →
      q.is_blocked = false) := by
  refine ⟨?_, ?_, ?_, ?_⟩
  · intro cfg p slot lam rcp oracle rdl hb hblk
    cases oracle with
    | none =>
        rw [monitor_oracle_failure] at hblk
        simp [hb] at hblk
    | some usd =>
        rw [monitor_not_blocked cfg p slot lam rcp usd rdl hb] at hblk ⊢
        exact (evalProfile_is_blocked_iff cfg p slot usd rdl hb).1 hblk
  · intro cfg p caller ai inds slot q hb heq hqb
    unfold update_risk_score_ai at heq
    split at heq
    · cases heq
      by_cases hai : ai > 90
      · exact hai
      · exfalso
        simp only [if_neg hai] at hqb
        rw [hb] at hqb
        cases hqb
    · cases heq
  · intro cfg p caller reason q heq
    unfold unblock_user at heq
    split at heq
    · cases heq; rfl
    · cases heq
  · intro a u d k s q heq
    unfold register_user_profile at heq
    cases heq; rfl

/-- Claim C10, witness for the amended theorem: an evaluation that blocks
(score 95 plus a 15-point flag) indeed crossed the threshold. -/
theorem C10_block_provenance_amended_witness :
    (monitor_transaction cfgB p95 1000 5 3 (Option.some 1500)
        Option.none).1.risk_score > 100 :=
  C10_block_provenance_amended.1 cfgB p95 1000 5 3 (Option.some 1500)
    Option.none rfl (by decide)

end FraudDetection
